import Mathlib

/-!
Shallow embedding of the `Framework` lifecycle core of `src/framework/mod.rs`
(the poise framework struct): construction (`new`), startup orchestration
(`start_with`, `start`, `start_autosharded`), the deferred self-reference cell
read by the raw-event bridge, the application-data slot and its polling reader
(`user_data`), and the background edit-track cache purge task.

Async/awaits are modelled by explicit state passing and by traces of actions;
the external client is modelled by the results its run operations return.
-/

/-- The external client error type (`serenity::Error` in the source); the
spec calls it `ClientError`. Only its identity matters here. -/
inductive ClientError where
  | mk (code : Nat)
deriving DecidableEq, Repr

/-- The external realtime client (`serenity::Client`): carries the shared
shard-manager handle and the results of its two blocking run operations,
which is all the lifecycle core observes of it. -/
structure Client where
  shard_manager : Nat
  startResult : Except ClientError Unit
  autoshardedResult : Except ClientError Unit

/-- `serenity::Client::start` (line 146 call site): the normal run operation. -/
def Client.start (c : Client) : Except ClientError Unit :=
  c.startResult

/-- `serenity::Client::start_autosharded` (line 156 call site): the
automatically-sharded run operation. -/
def Client.start_autosharded (c : Client) : Except ClientError Unit :=
  c.autoshardedResult

/-- The `Framework<U, E>` struct (lines 13-38 of `src/framework/mod.rs`):
`user_data` is the once-cell application-data slot, `options_edit_tracker`
records whether `options.prefix_options.edit_tracker` is configured,
`client` is the `Mutex<Option<serenity::Client>>` transient handle, and
`user_data_setup` is the one-shot setup callback (error payload `E`,
ready payload abstracted as a `Nat`). -/
structure Framework (U E : Type) where
  user_data : Option U
  options_edit_tracker : Bool
  application_id : Nat
  client : Option Client
  shard_manager : Nat
  user_data_setup : Option (Nat → Except E U)

/-- `once_cell::sync::OnceCell::set`: writes only when the cell is empty;
a second set is a no-op that does not overwrite (line 103 discards the
`Result` of `framework_cell.set`). -/
def cellSet (cell : Option α) (v : α) : Option α :=
  match cell with
  | some old => some old
  | none => some v

/-- Result of the event bridge's `raw_event` (lines 79-85): the
`self.0.get().unwrap()` either yields the framework stored in the deferred
self-reference cell and dispatches, or panics when the cell is empty. -/
inductive RawEventResult (α : Type) where
  | dispatched (fw : α)
  | panicked

/-- `EventHandler::raw_event` (lines 79-85): read the deferred
self-reference cell; `unwrap` panics when it is still empty, otherwise the
event is delegated to the stored framework. -/
def raw_event (cell : Option α) : RawEventResult α :=
  match cell with
  | some fw => RawEventResult.dispatched fw
  | none => RawEventResult.panicked

/-- `Framework::new` (lines 56-105), together with the final state of the
deferred self-reference cell `framework_cell`: build the client from the
given builder result (the `?` on line 93 propagates a build failure before
any framework is assembled), assemble the framework around the client
(cloning its shard manager, storing the setup callback and options), then
write it into the cell (line 103). Returns the `Result` of `new` paired
with the cell's final content. -/
def newTrace (U E : Type) (application_id : Nat)
    (client_builder : Except ClientError Client)
    (user_data_setup : Nat → Except E U) (options_edit_tracker : Bool) :
    Except ClientError (Framework U E) × Option (Framework U E) :=
  match client_builder with
  | Except.error e => (Except.error e, none)
  | Except.ok client =>
    let framework : Framework U E :=
      { user_data := none
        options_edit_tracker := options_edit_tracker
        application_id := application_id
        client := some client
        shard_manager := client.shard_manager
        user_data_setup := some user_data_setup }
    (Except.ok framework, cellSet none framework)

/-- Outcome of a call to `start_with`: clean return, propagated
`ClientError`, or a panic (the `expect` on line 120). -/
inductive Outcome where
  | ok
  | err (e : ClientError)
  | panicked (msg : String)
deriving DecidableEq, Repr

/-- Observable result of `Framework::start_with`: its outcome, the
framework state after the call (the transient client handle is taken on
entry), whether the purge task was spawned, and whether it was aborted
before the call returned. -/
structure StartResult (U E : Type) where
  outcome : Outcome
  framework : Framework U E
  taskSpawned : Bool
  taskAborted : Bool

/-- `Framework::start_with` (lines 107-138): take the client out of the
mutex-guarded slot, `expect`-panicking when it is already gone (double
start, line 120); spawn the edit-track cache purge task (line 122); await
the run operation (line 133) — on `Err` the `?` operator returns early,
skipping the `abort` on line 135, so the task is aborted only on the `Ok`
path. -/
def start_with (run : Client → Except ClientError Unit)
    (fw : Framework U E) : StartResult U E :=
  match fw.client with
  | none =>
    { outcome := Outcome.panicked "Prepared client is missing"
      framework := fw
      taskSpawned := false
      taskAborted := false }
  | some c =>
    let fwTaken : Framework U E := { fw with client := none }
    match run c with
    | Except.error e =>
      { outcome := Outcome.err e
        framework := fwTaken
        taskSpawned := true
        taskAborted := false }
    | Except.ok _ =>
      { outcome := Outcome.ok
        framework := fwTaken
        taskSpawned := true
        taskAborted := true }

/-- `Framework::start` (lines 141-148): `start_with` applied to
`Client::start`. -/
def Framework.start (fw : Framework U E) : StartResult U E :=
  start_with Client.start fw

/-- `Framework::start_autosharded` (lines 151-158): `start_with` applied to
`Client::start_autosharded`. -/
def Framework.start_autosharded (fw : Framework U E) : StartResult U E :=
  start_with Client.start_autosharded fw

/-- `true` iff the run operation returned `Ok`. -/
def isOk (r : Except ClientError Unit) : Bool :=
  match r with
  | Except.ok _ => true
  | Except.error _ => false

/-- The `Outcome` that `start_with` propagates for a given run result. -/
def runOutcome (r : Except ClientError Unit) : Outcome :=
  match r with
  | Except.ok _ => Outcome.ok
  | Except.error e => Outcome.err e

/-- Swap the results of the two run operations of a client: `start` on the
swapped client behaves as `start_autosharded` on the original. -/
def swapStartModes (c : Client) : Client :=
  { c with startResult := c.autoshardedResult
           autoshardedResult := c.startResult }

/-- `Framework::user_data` (lines 177-184): loop reading the once-cell
application-data slot; on `Some` break with the value, on `None` sleep
100ms and recheck. `obs k` is the slot content observed by the `k`-th
check of the loop (the slot may be filled concurrently between checks);
`fuel` bounds the number of checks so the loop is a total function. On
success the result carries the value together with the total time slept
before returning (100 units per empty check). -/
def user_data_poll (obs : Nat → Option U) : Nat → Nat → Option (U × Nat)
  | _, 0 => none
  | k, fuel + 1 =>
    match obs k with
    | some x => some (x, 100 * k)
    | none => user_data_poll obs (k + 1) fuel

/-- Modelled from the spec: the first "session ready" handling lives in
`src/framework/dispatch.rs`, which is not under `src/`. Per the spec, on a
"session ready" event the controller takes the setup callback out of its
mutex-guarded option (consuming it, so a second ready event finds `None`
and must not re-invoke setup), invokes it with the ready payload, and on
success populates the application-data slot (once-cell set); on failure
the error is surfaced to error reporting and the slot stays untouched.
Returns the new framework state and whether the callback was invoked. -/
def onReady (payload : Nat) (fw : Framework U E) : Framework U E × Bool :=
  match fw.user_data_setup with
  | none => (fw, false)
  | some setup =>
    let fwTaken : Framework U E := { fw with user_data_setup := none }
    match setup payload with
    | Except.ok u =>
      ({ fwTaken with user_data := cellSet fwTaken.user_data u }, true)
    | Except.error _e => (fwTaken, true)

/-- Fold `onReady` over a list of "session ready" payloads, counting how
many of them actually invoked the setup callback. -/
def runReadies (fw : Framework U E) : List Nat → Framework U E × Nat
  | [] => (fw, 0)
  | p :: ps =>
    let r := onReady p fw
    let rest := runReadies r.1 ps
    (rest.1, (if r.2 then 1 else 0) + rest.2)

/-- The operations that mutate a framework after construction: a "session
ready" gateway event (modelled from the spec, see `onReady`), a start of
the run loop (which takes the transient client handle), and any other raw
event (which never touches the framework's own state). -/
inductive Op where
  | ready (payload : Nat)
  | startOp
  | otherEvent

/-- One framework state transition per operation. `startOp` uses the
post-state of `start_with` (`Client.start` as the run operation; the
framework state it leaves behind does not depend on the run result). -/
def step (op : Op) (fw : Framework U E) : Framework U E :=
  match op with
  | Op.ready p => (onReady p fw).1
  | Op.startOp => (start_with Client.start fw).framework
  | Op.otherEvent => fw

/-- Run a sequence of operations from a framework state. -/
def runOps : List Op → Framework U E → Framework U E
  | [], fw => fw
  | op :: ops, fw => runOps ops (step op fw)

/-- Observable actions of the background edit-track cache purge task
(lines 122-130): acquiring and releasing the write lock on the
edit-tracker, calling `purge`, and sleeping for a number of time units. -/
inductive TaskAction where
  | acquireEditLock
  | purge
  | releaseEditLock
  | sleep (units : Nat)
deriving DecidableEq, Repr

/-- One iteration of the purge task loop body (lines 123-129): when
`options.prefix_options.edit_tracker` is configured, take the write lock,
purge, drop the lock at the end of the statement; then in either case
sleep for 60 seconds. -/
def purgeIteration (editTrackerConfigured : Bool) : List TaskAction :=
  (if editTrackerConfigured then
    [TaskAction.acquireEditLock, TaskAction.purge, TaskAction.releaseEditLock]
  else []) ++ [TaskAction.sleep 60]

/-- The purge task's trace over its first `n` loop iterations. -/
def purgeTask (cfg : Bool) : Nat → List TaskAction
  | 0 => []
  | n + 1 => purgeIteration cfg ++ purgeTask cfg n

/-- Lock discipline of a trace, tracked with the current lock depth `d`:
the exclusive lock is only acquired when free, only released when held,
`purge` happens only while the lock is held, and the lock is never held
across a sleep (a suspension point). -/
def wellLocked : Nat → List TaskAction → Bool
  | d, [] => d == 0
  | d, TaskAction.acquireEditLock :: rest => d == 0 && wellLocked 1 rest
  | d, TaskAction.releaseEditLock :: rest => d == 1 && wellLocked 0 rest
  | d, TaskAction.purge :: rest => d == 1 && wellLocked d rest
  | d, TaskAction.sleep _ :: rest => d == 0 && wellLocked d rest

/-- The absolute times (sum of sleeps so far, starting from `t`) at which
the `purge` calls of a trace occur. -/
def purgeTimes : List TaskAction → Nat → List Nat
  | [], _ => []
  | TaskAction.purge :: rest, t => t :: purgeTimes rest t
  | TaskAction.sleep d :: rest, t => purgeTimes rest (t + d)
  | _ :: rest, t => purgeTimes rest t

/-- A concrete client whose normal run operation fails with error code 5
and whose autosharded run operation succeeds. -/
def cErrClient : Client :=
  { shard_manager := 0
    startResult := Except.error (ClientError.mk 5)
    autoshardedResult := Except.ok () }

/-- A concrete client whose run operations both succeed. -/
def cOkClient : Client :=
  { shard_manager := 2
    startResult := Except.ok ()
    autoshardedResult := Except.ok () }

/-- A concrete freshly-constructed framework holding `cErrClient`. -/
def fwErrClient : Framework Nat Unit :=
  { user_data := none
    options_edit_tracker := true
    application_id := 1
    client := some cErrClient
    shard_manager := 0
    user_data_setup := none }

/-- The framework that `newTrace` assembles around `cOkClient` with
application id 1, setup callback returning `9`, and no edit tracker. -/
def fwBuilt : Framework Nat Unit :=
  { user_data := none
    options_edit_tracker := false
    application_id := 1
    client := some cOkClient
    shard_manager := 2
    user_data_setup := some (fun _ => Except.ok 9) }

/-- A concrete framework whose application-data slot is already filled
with `3` (post-startup state: client taken, setup callback consumed). -/
def fwFilled : Framework Nat Unit :=
  { user_data := some 3
    options_edit_tracker := false
    application_id := 7
    client := none
    shard_manager := 0
    user_data_setup := none }

/-- C6: if building the external client inside `new` fails, `new` returns
that `ClientError` and no controller is produced: no framework is
assembled and the deferred self-reference cell is never written. -/
theorem c6_build_failure_no_controller (U E : Type) (appId : Nat)
    (e : ClientError) (setup : Nat → Except E U) (et : Bool) :
    newTrace U E appId (Except.error e) setup et =
      (Except.error e, (none : Option (Framework U E))) :=
  rfl

/-- C2: whenever `new` returns `Ok fw`, the deferred self-reference cell
has been written with exactly that framework before `new` returns, so the
event bridge's read of the cell succeeds and the unwrap-failure branch of
`raw_event` is unreachable for events delivered after start. -/
theorem c2_cell_written_before_new_returns (U E : Type) (appId : Nat)
    (build : Except ClientError Client) (setup : Nat → Except E U) (et : Bool)
    (fw : Framework U E)
    (h : (newTrace U E appId build setup et).1 = Except.ok fw) :
    (newTrace U E appId build setup et).2 = some fw ∧
      raw_event (newTrace U E appId build setup et).2 =
        RawEventResult.dispatched fw := by
  cases build with
  | error e => simp [newTrace] at h
  | ok c =>
    simp only [newTrace, Except.ok.injEq] at h
    subst h
    exact ⟨rfl, rfl⟩

/-- Witness for C2 at a concrete input: `newTrace` on `cOkClient`. -/
theorem c2_cell_written_witness :
    (newTrace Nat Unit 1 (Except.ok cOkClient) (fun _ => Except.ok 9) false).2 =
        some fwBuilt ∧
      raw_event
          (newTrace Nat Unit 1 (Except.ok cOkClient) (fun _ => Except.ok 9) false).2 =
        RawEventResult.dispatched fwBuilt :=
  c2_cell_written_before_new_returns Nat Unit 1 (Except.ok cOkClient)
    (fun _ => Except.ok 9) false fwBuilt rfl

/-- C1 counterexample: with a client whose run operation returns an error,
`start` returns the `ClientError` while the spawned purge task has NOT
been aborted — the `?` on line 133 returns before the `abort` on line 135,
refuting "cancellation occurs on every exit path". -/
theorem c1_cancel_counterexample :
    (Framework.start fwErrClient).outcome = Outcome.err (ClientError.mk 5) ∧
      (Framework.start fwErrClient).taskSpawned = true ∧
      (Framework.start fwErrClient).taskAborted = false :=
  ⟨rfl, rfl, rfl⟩

/-- C1 amended: for a framework whose client handle is still present, the
purge task is always spawned, but it is aborted before `start_with`
returns exactly when the run operation succeeds; on the error path the
early return skips the abort, and the run result is propagated either
way. -/
theorem c1_task_aborted_only_on_ok (U E : Type) (fw : Framework U E)
    (run : Client → Except ClientError Unit) (c : Client)
    (h : fw.client = some c) :
    (start_with run fw).taskSpawned = true ∧
      (start_with run fw).taskAborted = isOk (run c) ∧
      (start_with run fw).outcome = runOutcome (run c) := by
  cases hr : run c <;> simp [start_with, h, hr, isOk, runOutcome]

/-- Witness for C1's amended theorem at a concrete input. -/
theorem c1_task_aborted_witness :
    (start_with Client.start fwErrClient).taskSpawned = true ∧
      (start_with Client.start fwErrClient).taskAborted =
        isOk (Client.start cErrClient) ∧
      (start_with Client.start fwErrClient).outcome =
        runOutcome (Client.start cErrClient) :=
  c1_task_aborted_only_on_ok Nat Unit fwErrClient Client.start cErrClient rfl

/-- When the transient client handle is already gone, `start_with` hits
the `expect` on line 120 and panics before spawning anything. -/
theorem start_with_client_none (U E : Type) (run : Client → Except ClientError Unit)
    (fw : Framework U E) (h : fw.client = none) :
    start_with run fw =
      { outcome := Outcome.panicked "Prepared client is missing"
        framework := fw
        taskSpawned := false
        taskAborted := false } := by
  simp [start_with, h]

/-- C5: a first `start_with` consumes the transient client handle (the
post-state's client slot is `None`), so a second `start_with` — whichever
run operation it uses — hits the `expect` and fails fast with the fatal
"Prepared client is missing" panic instead of hanging, retrying or
silently doing nothing. -/
theorem c5_double_start_fails_fast (U E : Type) (fw : Framework U E)
    (c : Client) (run₁ run₂ : Client → Except ClientError Unit)
    (h : fw.client = some c) :
    (start_with run₁ fw).framework.client = none ∧
      (start_with run₂ (start_with run₁ fw).framework).outcome =
        Outcome.panicked "Prepared client is missing" := by
  have h1 : (start_with run₁ fw).framework.client = none := by
    cases hr : run₁ c <;> simp [start_with, h, hr]
  exact ⟨h1, by rw [start_with_client_none U E run₂ _ h1]⟩

/-- Witness for C5 at a concrete input. -/
theorem c5_double_start_witness :
    (start_with Client.start fwErrClient).framework.client = none ∧
      (start_with Client.start_autosharded
          (start_with Client.start fwErrClient).framework).outcome =
        Outcome.panicked "Prepared client is missing" :=
  c5_double_start_fails_fast Nat Unit fwErrClient cErrClient Client.start
    Client.start_autosharded rfl

/-- C9: `start` and `start_autosharded` are the same orchestration — both
are `start_with` applied to the respective client run operation, and
swapping the client's two run operations turns `start` into
`start_autosharded` exactly. -/
theorem c9_shared_orchestration (U E : Type) (fw : Framework U E) :
    Framework.start fw = start_with Client.start fw ∧
      Framework.start_autosharded fw = start_with Client.start_autosharded fw ∧
      Framework.start_autosharded fw =
        Framework.start { fw with client := fw.client.map swapStartModes } := by
  refine ⟨rfl, rfl, ?_⟩
  obtain ⟨ud, et, ai, cl, sm, uds⟩ := fw
  cases cl with
  | none => rfl
  | some c =>
    cases hr : c.autoshardedResult <;>
      simp [Framework.start, Framework.start_autosharded, start_with,
        Client.start, Client.start_autosharded, swapStartModes, hr]

/-- The polling loop, started at check index `k`, returns the first filled
observation: if the slot is write-once (`mono`) and observed filled `d`
checks ahead, the loop returns the stored value after some `j ≤ d` empty
checks, having slept 100 time units per empty check. -/
theorem user_data_poll_finds (U : Type) (obs : Nat → Option U)
    (mono : ∀ m n v, m ≤ n → obs m = some v → obs n = some v) :
    ∀ d k v, obs (k + d) = some v →
      ∃ j, j ≤ d ∧ (∀ i, i < j → obs (k + i) = none) ∧
        ∀ fuel, d < fuel → user_data_poll obs k fuel = some (v, 100 * (k + j)) := by
  intro d
  induction d with
  | zero =>
    intro k v h
    refine ⟨0, Nat.le_refl 0, fun i hi => absurd hi (Nat.not_lt_zero i), ?_⟩
    intro fuel hf
    obtain ⟨f, rfl⟩ : ∃ f, fuel = f + 1 := ⟨fuel - 1, by omega⟩
    have hk : obs k = some v := by simpa using h
    simp [user_data_poll, hk]
  | succ d ih =>
    intro k v h
    cases hk : obs k with
    | some w =>
      have hw : obs (k + (d + 1)) = some w :=
        mono k (k + (d + 1)) w (Nat.le_add_right _ _) hk
      have hvw : w = v := Option.some.inj (hw.symm.trans h)
      refine ⟨0, Nat.zero_le _, fun i hi => absurd hi (Nat.not_lt_zero i), ?_⟩
      intro fuel hf
      obtain ⟨f, rfl⟩ : ∃ f, fuel = f + 1 := ⟨fuel - 1, by omega⟩
      simp [user_data_poll, hk, hvw]
    | none =>
      have h' : obs ((k + 1) + d) = some v := by
        have heq : (k + 1) + d = k + (d + 1) := by omega
        rw [heq]; exact h
      obtain ⟨j, hj, hnone, hrun⟩ := ih (k + 1) v h'
      refine ⟨j + 1, by omega, ?_, ?_⟩
      · intro i hi
        cases i with
        | zero => simpa using hk
        | succ i' =>
          have heq : k + (i' + 1) = (k + 1) + i' := by omega
          rw [heq]
          exact hnone i' (by omega)
      · intro fuel hf
        obtain ⟨f, rfl⟩ : ∃ f, fuel = f + 1 := ⟨fuel - 1, by omega⟩
        have hrec := hrun f (by omega)
        have heq : (k + 1) + j = k + (j + 1) := by omega
        rw [heq] at hrec
        simp [user_data_poll, hk, hrec]

/-- C3: `user_data` never fails and never returns while the slot is empty:
under the write-once discipline, if the `n`-th check would observe the
slot filled with `v`, the loop returns exactly `v` at the first check that
observes the slot filled (all earlier checks observed it empty), after
sleeping 100 time units per empty check. -/
theorem c3_user_data_returns_stored (U : Type) (obs : Nat → Option U)
    (n : Nat) (v : U)
    (mono : ∀ m n v, m ≤ n → obs m = some v → obs n = some v)
    (hfill : obs n = some v) :
    ∃ j, j ≤ n ∧ (∀ i, i < j → obs i = none) ∧
      user_data_poll obs 0 (n + 1) = some (v, 100 * j) := by
  obtain ⟨j, hj, hnone, hrun⟩ :=
    user_data_poll_finds U obs mono n 0 v (by simpa using hfill)
  refine ⟨j, hj, fun i hi => by simpa using hnone i hi, ?_⟩
  simpa using hrun (n + 1) (Nat.lt_succ_self n)

/-- Witness for C3 at a concrete input: the slot already holds `7` at the
first check. -/
theorem c3_user_data_witness :
    ∃ j, j ≤ 0 ∧ (∀ i, i < j → (fun _ : Nat => some (7 : Nat)) i = none) ∧
      user_data_poll (fun _ : Nat => some (7 : Nat)) 0 (0 + 1) =
        some (7, 100 * j) :=
  c3_user_data_returns_stored Nat (fun _ => some 7) 0 7
    (fun _ _ _ _ hv => hv) rfl

/-- After any "session ready" handling, the setup callback slot is empty:
either this ready event consumed it, or it was already gone. -/
theorem onReady_setup_none (U E : Type) (p : Nat) (fw : Framework U E) :
    (onReady p fw).1.user_data_setup = none := by
  cases hs : fw.user_data_setup with
  | none => simp [onReady, hs]
  | some setup => cases hst : setup p <;> simp [onReady, hs, hst]

/-- A "session ready" event arriving when the setup callback is already
consumed is a complete no-op: it does not invoke the callback and does not
change the framework state. -/
theorem onReady_noop (U E : Type) (p : Nat) (fw : Framework U E)
    (h : fw.user_data_setup = none) : onReady p fw = (fw, false) := by
  simp [onReady, h]

/-- When the setup callback is already consumed, a whole sequence of
further ready events invokes it zero times. -/
theorem runReadies_count_zero (U E : Type) (fw : Framework U E)
    (ps : List Nat) (h : fw.user_data_setup = none) :
    (runReadies fw ps).2 = 0 := by
  induction ps generalizing fw with
  | nil => rfl
  | cons p ps ih =>
    simp [runReadies, onReady_noop U E p fw h]
    exact ih fw h

/-- C4: over any sequence of "session ready" signals the setup callback is
invoked at most once, and a second ready signal after a first one neither
re-invokes the callback nor changes any framework state (in particular the
application-data slot is not repopulated and not put in error). -/
theorem c4_setup_at_most_once (U E : Type) (fw : Framework U E)
    (ps : List Nat) (p q : Nat) :
    (runReadies fw ps).2 ≤ 1 ∧
      onReady q (onReady p fw).1 = ((onReady p fw).1, false) := by
  constructor
  · cases ps with
    | nil => simp [runReadies]
    | cons r rs =>
      have hz := runReadies_count_zero U E (onReady r fw).1 rs
        (onReady_setup_none U E r fw)
      simp only [runReadies, hz]
      cases (onReady r fw).2 <;> simp
  · exact onReady_noop U E q (onReady p fw).1 (onReady_setup_none U E p fw)

/-- No single operation can change an already-filled application-data
slot: ready events write through the once-cell `set` (a no-op on a filled
cell), and neither starting nor other events touch the slot. -/
theorem step_preserves_user_data (U E : Type) (op : Op) (fw : Framework U E)
    (v : U) (h : fw.user_data = some v) : (step op fw).user_data = some v := by
  obtain ⟨ud, et, ai, cl, sm, uds⟩ := fw
  cases op with
  | ready p =>
    cases uds with
    | none => simpa [step, onReady] using h
    | some setup =>
      cases hst : setup p with
      | ok u =>
        simp only [Framework.user_data] at h
        simp [step, onReady, hst, cellSet, h]
      | error e => simpa [step, onReady, hst] using h
  | startOp =>
    cases cl with
    | none => simpa [step, start_with] using h
    | some c =>
      cases hr : Client.start c <;> simpa [step, start_with, hr] using h
  | otherEvent => simpa [step] using h

/-- Once filled, the slot survives any sequence of operations. -/
theorem runOps_preserves_user_data (U E : Type) (ops : List Op)
    (fw : Framework U E) (v : U) (h : fw.user_data = some v) :
    (runOps ops fw).user_data = some v := by
  induction ops generalizing fw with
  | nil => exact h
  | cons op ops ih =>
    exact ih (step op fw) (step_preserves_user_data U E op fw v h)

/-- C7: the application-data slot transitions at most once from empty to
full and is never cleared: once it contains `v`, it contains `v` after any
sequence of operations, and a `user_data` call on the resulting state
returns exactly `v` at its first check without sleeping. -/
theorem c7_slot_write_once (U E : Type) (ops : List Op) (fw : Framework U E)
    (v : U) (h : fw.user_data = some v) :
    (runOps ops fw).user_data = some v ∧
      user_data_poll (fun _ => (runOps ops fw).user_data) 0 1 = some (v, 0) := by
  have hp := runOps_preserves_user_data U E ops fw v h
  refine ⟨hp, ?_⟩
  simp [user_data_poll, hp]

/-- Witness for C7 at a concrete input: a filled framework run through a
ready event, a start and an unrelated event. -/
theorem c7_slot_write_once_witness :
    (runOps [Op.ready 0, Op.startOp, Op.otherEvent] fwFilled).user_data =
        some 3 ∧
      user_data_poll
          (fun _ => (runOps [Op.ready 0, Op.startOp, Op.otherEvent] fwFilled).user_data)
          0 1 =
        some (3, 0) :=
  c7_slot_write_once Nat Unit [Op.ready 0, Op.startOp, Op.otherEvent]
    fwFilled 3 rfl

/-- Prepending one loop iteration preserves the lock discipline of the
remaining trace: the iteration itself acquires the lock only around the
purge call and never holds it across the sleep. -/
theorem wellLocked_iteration_append (cfg : Bool) (t : List TaskAction) :
    wellLocked 0 (purgeIteration cfg ++ t) = wellLocked 0 t := by
  cases cfg <;> simp [purgeIteration, wellLocked]

/-- C8: one maintenance iteration with no edit tracker configured is just
the 60-unit sleep (a no-op that cannot error); with an edit tracker it is
acquire-purge-release followed by the 60-unit sleep; and over any number
of iterations the exclusive lock is held exactly around each purge call
and never across a suspension. -/
theorem c8_purge_iteration_shape (cfg : Bool) (n : Nat) :
    purgeIteration false = [TaskAction.sleep 60] ∧
      purgeIteration true =
        [TaskAction.acquireEditLock, TaskAction.purge,
          TaskAction.releaseEditLock, TaskAction.sleep 60] ∧
      wellLocked 0 (purgeTask cfg n) = true := by
  refine ⟨rfl, rfl, ?_⟩
  induction n with
  | zero => rfl
  | succ n ih =>
    show wellLocked 0 (purgeIteration cfg ++ purgeTask cfg n) = true
    rw [wellLocked_iteration_append]
    exact ih

/-- With an edit tracker configured, the purge calls of the first `n` loop
iterations happen at times `t`, `t + 60`, `t + 120`, ... when the task
starts at time `t`. -/
theorem purgeTimes_purgeTask (n : Nat) :
    ∀ t, purgeTimes (purgeTask true n) t =
      (List.range n).map (fun k => t + 60 * k) := by
  induction n with
  | zero => intro t; rfl
  | succ n ih =>
    intro t
    have hsh : purgeTimes (purgeIteration true ++ purgeTask true n) t =
        t :: purgeTimes (purgeTask true n) (t + 60) := rfl
    show purgeTimes (purgeIteration true ++ purgeTask true n) t = _
    rw [hsh, ih (t + 60), List.range_succ_eq_map, List.map_cons, List.map_map]
    simp only [List.cons.injEq]
    refine ⟨by omega, ?_⟩
    apply List.map_congr_left
    intro k _
    simp only [Function.comp]
    omega

/-- C10: the maintenance task's first purge check runs immediately on
spawn — the 60-unit sleep follows each check rather than preceding it —
so with a configured edit tracker the purges occur at times 0, 60, 120,
... relative to spawn, and the first purge is at time 0. -/
theorem c10_purges_start_immediately (n m : Nat) :
    purgeTimes (purgeTask true n) 0 = (List.range n).map (fun k => 60 * k) ∧
      (purgeTimes (purgeTask true (m + 1)) 0).head? = some 0 := by
  constructor
  · simpa using purgeTimes_purgeTask n 0
  · rw [purgeTimes_purgeTask (m + 1) 0]
    simp [List.range_succ_eq_map]
